import Mathlib

/-!
Shallow embedding of the WhatsApp campaign controller
(the client-side page component holding the file selector, submission
client, status poller, log aggregator and toast machinery), together
with theorems settling the specification claims about it.

Conventions of the embedding:
* React `useState` slots become fields of `AppState`; each event handler
  becomes a pure function `AppState → AppState` (plus extra outputs where
  a claim needs them, e.g. whether a network request was issued).
* The wall clock is an explicit input: a `Clock` value carries the
  `Date.now()` millisecond reading and the `toLocaleTimeString()` string
  observed at that call site.
* Backend responses are explicit inputs (`SubmitResult`, `StatusResult`),
  so the handlers are deterministic functions of state, clock and response.
* `setInterval` / `clearInterval` are modelled by a list of live interval
  timers (`liveIntervals`) plus a fresh-id counter; `clearInterval`
  removes a timer by id.  The toast auto-clear `setTimeout` of the
  `useEffect` on `toast` is modelled by an expiry deadline
  (`toastDeadline`) that is overwritten (= the old timer is cleared)
  whenever the toast is replaced.
* JavaScript truthiness of the optional numeric response fields is
  modelled by `jsTruthyNum` (`undefined` and `0` are falsy), and template
  literal interpolation of possibly-undefined values by `jsNumStr` /
  `jsStrStr` (an absent value prints as "undefined").
-/

namespace WhatsappSpec

/-- Severity of a log entry, as in the source union
`'info' | 'success' | 'error' | 'warning'`. -/
inductive LogType where
  | info
  | success
  | error
  | warning
deriving DecidableEq, Repr

/-- Severity of a toast, as in the source union `'success' | 'error'`
(the slot itself may additionally hold `null`, modelled with `Option`). -/
inductive ToastType where
  | success
  | error
deriving DecidableEq, Repr

/-- One observation of the environment clock: the `Date.now()` millisecond
value and the `toLocaleTimeString()` rendering taken at the same call. -/
structure Clock where
  nowMs : Nat
  localeTime : String
deriving DecidableEq, Repr

/-- A log entry, as in the source interface `Log`.  The source stores
`id : string` assigned from `Date.now().toString()`; we keep the string,
produced with `Nat.repr` from the clock. -/
structure LogEntry where
  id : String
  timestamp : String
  message : String
  type : LogType
deriving DecidableEq, Repr

/-- The toast slot: `{ message: string; type: 'success'|'error'|null }`. -/
structure ToastVal where
  message : String
  type : Option ToastType
deriving DecidableEq, Repr

/-- The selected file (name and byte size; the binary content is opaque
and irrelevant to every claim). -/
structure FileHandle where
  name : String
  size : Nat
deriving DecidableEq, Repr

/-- The campaign status snapshot, as in the source interface
`CampaignStatus` (optional fields are `Option`). -/
structure CampaignStatus where
  fileName : String
  status : String
  processed : Option Nat
  total : Option Nat
  successful : Option Nat
  failed : Option Nat
  successRate : Option String
deriving DecidableEq, Repr

/-- A live `setInterval` timer: its id, the file name captured by its
callback closure, and its period in milliseconds. -/
structure Interval where
  id : Nat
  fileName : String
  periodMs : Nat
deriving DecidableEq, Repr

/-- The component state: one field per `useState` slot, plus the
environment's set of live interval timers (`liveIntervals`), a fresh
timer-id counter (`nextTimerId`), and the pending toast auto-clear
deadline (`toastDeadline`, the `setTimeout` of the toast effect). -/
structure AppState where
  file : Option FileHandle
  logs : List LogEntry
  isLoading : Bool
  toast : ToastVal
  toastDeadline : Option Nat
  campaignStatus : Option CampaignStatus
  pollingInterval : Option Nat
  templateName : String
  liveIntervals : List Interval
  nextTimerId : Nat
deriving DecidableEq, Repr

/-- The initial component state, from the `useState` initialisers. -/
def initState : AppState :=
  { file := none
    logs := []
    isLoading := false
    toast := { message := "", type := none }
    toastDeadline := none
    campaignStatus := none
    pollingInterval := none
    templateName := "scalixity_marketing_2"
    liveIntervals := []
    nextTimerId := 0 }

/-- The toast auto-clear delay: `setTimeout(..., 3000)`. -/
def toastAutoClearMs : Nat := 3000

/-- The poll period: `setInterval(..., 5000)`. -/
def pollPeriodMs : Nat := 5000

/-- Build one log entry, as the source does inside `addLog`:
`id = Date.now().toString()`, `timestamp = toLocaleTimeString()`. -/
def mkLog (c : Clock) (message : String) (ty : LogType) : LogEntry :=
  { id := Nat.repr c.nowMs
    timestamp := c.localeTime
    message := message
    type := ty }

/-- `addLog`: prepend one new entry to the log list
(`setLogs(prev => [newLog, ...prev])`). -/
def addLog (c : Clock) (message : String) (ty : LogType)
    (logs : List LogEntry) : List LogEntry :=
  mkLog c message ty :: logs

/-- `setToast` together with the `useEffect` on `toast`: the slot is
replaced, the previous auto-clear timer (if any) is cleared by the
effect cleanup, and a new 3000 ms timer is armed exactly when the new
toast's type is non-null. -/
def setToastFx (c : Clock) (t : ToastVal) (s : AppState) : AppState :=
  { s with
    toast := t
    toastDeadline :=
      if t.type.isSome then some (c.nowMs + toastAutoClearMs) else none }

/-- The toast auto-clear timer firing at time `now`: if the armed
deadline is exactly `now`, the slot is emptied
(`setToast({ message: '', type: null })`); otherwise nothing happens. -/
def expireToast (now : Nat) (s : AppState) : AppState :=
  if s.toastDeadline = some now then
    { s with toast := { message := "", type := none }, toastDeadline := none }
  else s

/-- JavaScript `String.prototype.endsWith`, modelled as a suffix test on
the character sequence. -/
def jsEndsWith (s suffixStr : String) : Bool :=
  suffixStr.toList.isSuffixOf s.toList

/-- Helper for `jsIncludes`: does `needle` occur as a contiguous run
anywhere in the haystack? -/
def jsIncludesAux (needle : List Char) : List Char → Bool
  | [] => needle.isEmpty
  | c :: t => needle.isPrefixOf (c :: t) || jsIncludesAux needle t

/-- JavaScript `String.prototype.includes`: substring containment,
used to state whether a surfaced message carries the backend detail. -/
def jsIncludes (hay needle : String) : Bool :=
  jsIncludesAux needle.toList hay.toList

/-- JavaScript `||` with a string fallback, as in
`data.detail || 'Error sending messages'`: `undefined`/`null` (absence)
and the empty string are falsy and fall back. -/
def jsOrElse (v : Option String) (fallback : String) : String :=
  match v with
  | some s => if s = "" then fallback else s
  | none => fallback

/-- `handleFileSelected`: reject any name not ending in `.csv` with an
error toast and no other change; otherwise replace the selection and
log `File selected: <name>`. -/
def handleFileSelected (c : Clock) (selectedFile : FileHandle)
    (s : AppState) : AppState :=
  if !(jsEndsWith selectedFile.name ".csv") then
    setToastFx c { message := "Please upload a CSV file", type := some ToastType.error } s
  else
    let s1 := { s with file := some selectedFile }
    { s1 with logs := addLog c ("File selected: " ++ selectedFile.name) LogType.info s1.logs }

/-- `clearInterval`: remove the timer with the given id from the set of
live interval timers. -/
def clearInterval (tid : Nat) (l : List Interval) : List Interval :=
  l.filter (fun j => j.id != tid)

/-- `startPollingStatus`: clear any previously tracked interval timer,
log `Checking campaign status...`, create a fresh 5000 ms interval whose
callback captures `fileName`, and track its id in `pollingInterval`. -/
def startPollingStatus (c : Clock) (fileName : String) (s : AppState) : AppState :=
  let s1 :=
    match s.pollingInterval with
    | some t => { s with liveIntervals := clearInterval t s.liveIntervals }
    | none => s
  let s2 := { s1 with logs := addLog c "Checking campaign status..." LogType.info s1.logs }
  { s2 with
    liveIntervals :=
      s2.liveIntervals ++ [{ id := s2.nextTimerId, fileName := fileName, periodMs := pollPeriodMs }]
    nextTimerId := s2.nextTimerId + 1
    pollingInterval := some s2.nextTimerId }

/-- Outcome of the submission request, as observed by `handleSendMessages`:
a 2xx JSON body with its `message`, a non-2xx JSON body with its optional
`detail`, or a transport failure (the thrown error's message). -/
inductive SubmitResult where
  | ok (message : String)
  | httpError (detail : Option String)
  | transportError (errMsg : String)
deriving DecidableEq, Repr

/-- JSON body of a status response, as read by the poll callback. -/
structure StatusResponse where
  status : String
  processed : Option Nat
  total : Option Nat
  successful : Option Nat
  failed : Option Nat
  success_rate : Option String
deriving DecidableEq, Repr

/-- Outcome of one status request: a 2xx JSON body, or a failure (non-2xx
response or transport error — both reach the same `catch` block). -/
inductive StatusResult where
  | ok (data : StatusResponse)
  | err
deriving DecidableEq, Repr

/-- JavaScript truthiness of an optional number: `undefined` and `0`
are falsy. -/
def jsTruthyNum : Option Nat → Bool
  | some n => n != 0
  | none => false

/-- Template-literal rendering of an optional number (`undefined` prints
as "undefined"). -/
def jsNumStr : Option Nat → String
  | some n => Nat.repr n
  | none => "undefined"

/-- Template-literal rendering of an optional string. -/
def jsStrStr : Option String → String
  | some v => v
  | none => "undefined"

/-- One firing of the poll interval callback for interval `iv`, given the
status-request outcome `r`.  On failure: one error log entry, nothing
else.  On success: overwrite the snapshot with the response fields; if
`status == 'completed'`, log the success rate and clear this interval
(and null the tracked id); otherwise if `processed` and `total` are both
truthy, log the progress fraction. -/
def pollTick (c : Clock) (iv : Interval) (r : StatusResult) (s : AppState) : AppState :=
  match r with
  | StatusResult.err =>
      { s with logs := addLog c "Error checking campaign status" LogType.error s.logs }
  | StatusResult.ok data =>
      let s1 := { s with
        campaignStatus := some
          { fileName := iv.fileName
            status := data.status
            processed := data.processed
            total := data.total
            successful := data.successful
            failed := data.failed
            successRate := data.success_rate } }
      if data.status = "completed" then
        let doneMsg := "Campaign completed. Success rate: " ++ jsStrStr data.success_rate
        let s2 := { s1 with logs := addLog c doneMsg LogType.success s1.logs }
        { s2 with
          liveIntervals := clearInterval iv.id s2.liveIntervals
          pollingInterval := none }
      else if jsTruthyNum data.processed && jsTruthyNum data.total then
        let progMsg := "Progress: " ++ jsNumStr data.processed ++ "/" ++ jsNumStr data.total
          ++ " contacts processed"
        { s1 with logs := addLog c progMsg LogType.info s1.logs }
      else s1

/-- `handleSendMessages`: with no file selected, only an error toast and
no request (second component `false`).  Otherwise set the loading flag,
log the upload attempt (clock `c1`), issue the request, and either
(success) log the acknowledgement, show a success toast (clock `c2`),
start the poller (clock `c3`) and set a `processing` snapshot, or
(failure) log `Error: <message>` and show the fixed error toast.  The
loading flag is reset in the `finally` block. -/
def handleSendMessages (c1 c2 c3 : Clock) (r : SubmitResult) (s : AppState) :
    AppState × Bool :=
  match s.file with
  | none =>
      (setToastFx c1 { message := "Please select a CSV file first", type := some ToastType.error } s,
        false)
  | some f =>
      let s1 := { s with isLoading := true }
      let s2 := { s1 with logs := addLog c1 "Uploading file and starting campaign..." LogType.info s1.logs }
      match r with
      | SubmitResult.ok m =>
          let s3 := { s2 with logs := addLog c2 ("Campaign started: " ++ m) LogType.success s2.logs }
          let s4 := setToastFx c2
            { message := "Campaign started successfully", type := some ToastType.success } s3
          let s5 := startPollingStatus c3 f.name s4
          let snap : CampaignStatus :=
            { fileName := f.name, status := "processing", processed := none, total := none,
              successful := none, failed := none, successRate := none }
          let s6 := { s5 with campaignStatus := some snap }
          ({ s6 with isLoading := false }, true)
      | SubmitResult.httpError detail =>
          let m := jsOrElse detail "Error sending messages"
          let s3 := { s2 with logs := addLog c2 ("Error: " ++ m) LogType.error s2.logs }
          let s4 := setToastFx c2
            { message := "Failed to start campaign", type := some ToastType.error } s3
          ({ s4 with isLoading := false }, true)
      | SubmitResult.transportError m =>
          let s3 := { s2 with logs := addLog c2 ("Error: " ++ m) LogType.error s2.logs }
          let s4 := setToastFx c2
            { message := "Failed to start campaign", type := some ToastType.error } s3
          ({ s4 with isLoading := false }, true)

/-- Whether an interval timer with id `tid` is currently scheduled. -/
def intervalLive (tid : Nat) (s : AppState) : Bool :=
  s.liveIntervals.any (fun j => j.id == tid)

/-- Environment semantics of the interval timer `iv`: at each scheduled
firing, if the timer is still live its callback runs on the next trace
element; once it is not live it never fires again.  Returns the final
state and the number of status requests issued. -/
def runPoller (iv : Interval) : List (Clock × StatusResult) → AppState → AppState × Nat
  | [], s => (s, 0)
  | (c, r) :: rest, s =>
      if intervalLive iv.id s then
        let p := runPoller iv rest (pollTick c iv r s)
        (p.1, p.2 + 1)
      else (s, 0)

/-- A sequence of log-producing events applied in creation order. -/
def appendLogs : List (Clock × String × LogType) → List LogEntry → List LogEntry
  | [], logs => logs
  | (c, m, t) :: evs, logs => appendLogs evs (addLog c m t logs)

/-- The entry a log-producing event creates. -/
def mkLogEv (e : Clock × String × LogType) : LogEntry :=
  mkLog e.1 e.2.1 e.2.2

/-- The interval ids tracked by the `pollingInterval` state slot. -/
def trackedTimers (s : AppState) : List Nat :=
  match s.pollingInterval with
  | some t => [t]
  | none => []

/-- Well-formedness of the timer state: every live interval is the one
tracked by `pollingInterval`, and every live interval's id is below the
fresh-id counter.  Holds initially and is maintained by every handler. -/
def PollerInv (s : AppState) : Prop :=
  (∀ iv ∈ s.liveIntervals, iv.id ∈ trackedTimers s) ∧
  (∀ iv ∈ s.liveIntervals, iv.id < s.nextTimerId)

/-! ## Shared helper lemmas -/

/-- A cleared interval id is no longer among the live timers. -/
theorem clearInterval_not_live (tid : Nat) (l : List Interval) :
    ((clearInterval tid l).any fun j => j.id == tid) = false := by
  rw [clearInterval, List.any_filter, List.any_eq_false]
  intro j _
  simp

/-- A timer that is not live never fires, so no requests are issued. -/
theorem runPoller_zero (iv : Interval) (s : AppState)
    (h : intervalLive iv.id s = false) :
    ∀ trace, (runPoller iv trace s).2 = 0 := by
  intro trace
  cases trace with
  | nil => rfl
  | cons p rest =>
      obtain ⟨c, r⟩ := p
      simp [runPoller, h]

/-- Unfolding `appendLogs`: the new entries sit at the head in reverse
creation order and the old entries are untouched. -/
theorem appendLogs_eq (evs : List (Clock × String × LogType)) (logs : List LogEntry) :
    appendLogs evs logs = (evs.map mkLogEv).reverse ++ logs := by
  induction evs generalizing logs with
  | nil => rfl
  | cons e evs ih =>
      obtain ⟨c, m, t⟩ := e
      show appendLogs evs (addLog c m t logs) = _
      rw [ih]
      simp [addLog, mkLogEv, List.append_assoc]

/-- Evaluating a poll tick on a `completed` response. -/
theorem pollTick_completed (c : Clock) (iv : Interval) (d : StatusResponse)
    (s : AppState) (hst : d.status = "completed") :
    pollTick c iv (StatusResult.ok d) s =
      { s with
        campaignStatus := some
          { fileName := iv.fileName, status := d.status, processed := d.processed,
            total := d.total, successful := d.successful, failed := d.failed,
            successRate := d.success_rate }
        logs := addLog c ("Campaign completed. Success rate: " ++ jsStrStr d.success_rate)
          LogType.success s.logs
        liveIntervals := clearInterval iv.id s.liveIntervals
        pollingInterval := none } := by
  simp [pollTick, hst]

/-- `startPollingStatus` on a well-formed state leaves exactly the fresh
interval live and tracks its id. -/
theorem startPolling_state (c : Clock) (fn : String) (s : AppState)
    (hinv : PollerInv s) :
    (startPollingStatus c fn s).liveIntervals =
      [{ id := s.nextTimerId, fileName := fn, periodMs := pollPeriodMs }] ∧
    (startPollingStatus c fn s).pollingInterval = some s.nextTimerId ∧
    (startPollingStatus c fn s).nextTimerId = s.nextTimerId + 1 := by
  obtain ⟨h1, _⟩ := hinv
  cases hp : s.pollingInterval with
  | none =>
      have hl : s.liveIntervals = [] := by
        cases hli : s.liveIntervals with
        | nil => rfl
        | cons a l =>
            have := h1 a (by rw [hli]; exact List.mem_cons_self a l)
            simp [trackedTimers, hp] at this
      simp [startPollingStatus, hp, hl]
  | some t =>
      have hcl : clearInterval t s.liveIntervals = [] := by
        rw [clearInterval, List.filter_eq_nil_iff]
        intro a ha
        have := h1 a ha
        simp [trackedTimers, hp] at this
        simp [this]
      simp [startPollingStatus, hp, hcl]

/-! ## Fixed inputs used by witnesses and counterexamples -/

/-- A concrete clock reading. -/
def clockW : Clock := { nowMs := 1000, localeTime := "10:00:00 AM" }

/-- A concrete interval timer handle. -/
def ivW : Interval := { id := 0, fileName := "contacts.csv", periodMs := 5000 }

/-- A concrete selected file. -/
def fileW : FileHandle := { name := "contacts.csv", size := 10 }

/-- A state with `fileW` selected and nothing else going on. -/
def sFileW : AppState := { initState with file := some fileW }

/-! ## Claims -/

/-- Claim C6: for any sequence of N log-producing events, the log read
immediately afterwards contains exactly N more entries, ordered strictly
newest-first (each append inserts one entry at the head), with no
capacity limit, no deduplication, and no mutation or removal of the
existing entries (they remain as the unchanged suffix). -/
theorem log_append_order (evs : List (Clock × String × LogType)) (logs : List LogEntry) :
    appendLogs evs logs = (evs.map mkLogEv).reverse ++ logs ∧
    (appendLogs evs logs).length = evs.length + logs.length := by
  refine ⟨appendLogs_eq evs logs, ?_⟩
  rw [appendLogs_eq]
  simp

/-- The two log entries the submission success path creates in the same
synchronous turn, hence with the same `Date.now()` reading. -/
def logsC7 : List LogEntry :=
  addLog { nowMs := 1700000000000, localeTime := "10:00:00 AM" }
    "Checking campaign status..." LogType.info
    (addLog { nowMs := 1700000000000, localeTime := "10:00:00 AM" }
      "Campaign started: queued" LogType.success [])

/-- Claim C7 (code bug): log ids are `Date.now().toString()`, so two
entries created within the same millisecond — as the submission success
path does when it logs the acknowledgement and then immediately
`Checking campaign status...` — receive the *same* id, not a strictly
greater one; the id list is not even duplicate-free (the ids are the
React list keys in the log display, which requires them unique). -/
theorem duplicate_log_ids_same_millisecond :
    logsC7.map LogEntry.id = ["1700000000000", "1700000000000"] ∧
    logsC7.head?.map LogEntry.id = (logsC7.drop 1).head?.map LogEntry.id := by
  constructor
  · rfl
  · rfl

/-- Claim C1: every poll tick whose status response reports
`status == "completed"` appends one success log entry containing the
reported success rate (rendered with `jsStrStr`, so an absent rate
prints as "undefined", as the template literal does), nulls the tracked
timer, clears its own interval (so it is no longer live), and — under
the firing semantics `runPoller`, where a non-live timer never fires —
no further status request is ever issued for that handle, whatever the
later trace. -/
theorem completed_tick_stops_polling (c : Clock) (iv : Interval) (d : StatusResponse)
    (s : AppState) (hst : d.status = "completed") :
    (pollTick c iv (StatusResult.ok d) s).logs =
      mkLog c ("Campaign completed. Success rate: " ++ jsStrStr d.success_rate)
        LogType.success :: s.logs ∧
    (pollTick c iv (StatusResult.ok d) s).pollingInterval = none ∧
    intervalLive iv.id (pollTick c iv (StatusResult.ok d) s) = false ∧
    ∀ trace, (runPoller iv trace (pollTick c iv (StatusResult.ok d) s)).2 = 0 := by
  have hlive : intervalLive iv.id (pollTick c iv (StatusResult.ok d) s) = false := by
    rw [pollTick_completed c iv d s hst, intervalLive]
    exact clearInterval_not_live iv.id s.liveIntervals
  refine ⟨?_, ?_, hlive, runPoller_zero iv _ hlive⟩
  · rw [pollTick_completed c iv d s hst]
    simp [addLog]
  · rw [pollTick_completed c iv d s hst]

/-- Completed status response used by the C1 witness. -/
def dDoneW : StatusResponse :=
  { status := "completed", processed := some 20, total := some 20,
    successful := some 19, failed := some 1, success_rate := some "95%" }

/-- A state in which the interval `ivW` is live and tracked. -/
def sPollW : AppState :=
  { initState with pollingInterval := some 0, liveIntervals := [ivW], nextTimerId := 1 }

/-- Witness for C1 at a concrete completed tick. -/
theorem completed_tick_stops_polling_witness :
    (pollTick clockW ivW (StatusResult.ok dDoneW) sPollW).logs =
      mkLog clockW ("Campaign completed. Success rate: " ++ "95%") LogType.success ::
        sPollW.logs ∧
    (pollTick clockW ivW (StatusResult.ok dDoneW) sPollW).pollingInterval = none ∧
    intervalLive ivW.id (pollTick clockW ivW (StatusResult.ok dDoneW) sPollW) = false ∧
    (runPoller ivW [(clockW, StatusResult.err)]
      (pollTick clockW ivW (StatusResult.ok dDoneW) sPollW)).2 = 0 :=
  ⟨(completed_tick_stops_polling clockW ivW dDoneW sPollW rfl).1,
   (completed_tick_stops_polling clockW ivW dDoneW sPollW rfl).2.1,
   (completed_tick_stops_polling clockW ivW dDoneW sPollW rfl).2.2.1,
   (completed_tick_stops_polling clockW ivW dDoneW sPollW rfl).2.2.2
     [(clockW, StatusResult.err)]⟩

/-- Claim C2: on a well-formed state, a successful submission ends with
exactly one live interval timer — the freshly created 5000 ms poller for
the submitted file — its id tracked; every previously live timer has
been stopped; and well-formedness is preserved. -/
theorem submit_success_single_poller (c1 c2 c3 : Clock) (m : String) (f : FileHandle)
    (s : AppState) (hf : s.file = some f) (hinv : PollerInv s) :
    (handleSendMessages c1 c2 c3 (SubmitResult.ok m) s).1.liveIntervals =
      [{ id := s.nextTimerId, fileName := f.name, periodMs := pollPeriodMs }] ∧
    (handleSendMessages c1 c2 c3 (SubmitResult.ok m) s).1.pollingInterval =
      some s.nextTimerId ∧
    (∀ iv ∈ s.liveIntervals,
      intervalLive iv.id (handleSendMessages c1 c2 c3 (SubmitResult.ok m) s).1 = false) ∧
    PollerInv (handleSendMessages c1 c2 c3 (SubmitResult.ok m) s).1 := by
  obtain ⟨sfile, slogs, sload, stoast, sdl, scs, spi, stn, sli, snid⟩ := s
  obtain rfl : sfile = some f := hf
  have hstep := startPolling_state c3 f.name
    ⟨some f,
     addLog c2 ("Campaign started: " ++ m) LogType.success (addLog c1 "Uploading file and starting campaign..." LogType.info slogs),
     true,
     ⟨"Campaign started successfully", some ToastType.success⟩,
     some (c2.nowMs + toastAutoClearMs), scs, spi, stn, sli, snid⟩
    (by exact hinv)
  have hA : (handleSendMessages c1 c2 c3 (SubmitResult.ok m)
      ⟨some f, slogs, sload, stoast, sdl, scs, spi, stn, sli, snid⟩).1.liveIntervals =
      [{ id := snid, fileName := f.name, periodMs := pollPeriodMs }] := hstep.1
  have hB : (handleSendMessages c1 c2 c3 (SubmitResult.ok m)
      ⟨some f, slogs, sload, stoast, sdl, scs, spi, stn, sli, snid⟩).1.pollingInterval =
      some snid := hstep.2.1
  have hC : (handleSendMessages c1 c2 c3 (SubmitResult.ok m)
      ⟨some f, slogs, sload, stoast, sdl, scs, spi, stn, sli, snid⟩).1.nextTimerId =
      snid + 1 := hstep.2.2
  refine ⟨hA, hB, ?_, ?_, ?_⟩
  · intro iv hiv
    have hid : iv.id < snid := hinv.2 iv hiv
    rw [intervalLive, hA]
    simp only [List.any_cons, List.any_nil, Bool.or_false, beq_eq_false_iff_ne, ne_eq]
    omega
  · intro iv hiv
    rw [hA] at hiv
    simp only [List.mem_singleton] at hiv
    subst hiv
    simp [trackedTimers, hB]
  · intro iv hiv
    rw [hA] at hiv
    simp only [List.mem_singleton] at hiv
    subst hiv
    simp [hC]

/-- A state with a previous campaign's poller still live and `fileW`
selected, used by the C2 witness. -/
def sPrevPollW : AppState :=
  { initState with
    file := some fileW
    pollingInterval := some 0
    liveIntervals := [{ id := 0, fileName := "old.csv", periodMs := 5000 }]
    nextTimerId := 1 }

/-- Witness for C2: submitting while the old poller for `old.csv` is
live leaves exactly the fresh poller for `contacts.csv` live. -/
theorem submit_success_single_poller_witness :
    (handleSendMessages clockW clockW clockW (SubmitResult.ok "queued") sPrevPollW).1.liveIntervals =
      [{ id := 1, fileName := "contacts.csv", periodMs := pollPeriodMs }] ∧
    (handleSendMessages clockW clockW clockW (SubmitResult.ok "queued") sPrevPollW).1.pollingInterval =
      some 1 ∧
    intervalLive 0
      (handleSendMessages clockW clockW clockW (SubmitResult.ok "queued") sPrevPollW).1 = false := by
  have h := submit_success_single_poller clockW clockW clockW "queued" fileW sPrevPollW rfl
    (by constructor <;> decide)
  exact ⟨by simpa [sPrevPollW, fileW] using h.1,
         by simpa [sPrevPollW] using h.2.1,
         h.2.2.1 { id := 0, fileName := "old.csv", periodMs := 5000 } (by decide)⟩

/-- Status response with `processed = 0`, used to refute C3 as stated. -/
def respZeroW : StatusResponse :=
  { status := "processing", processed := some 0, total := some 20,
    successful := none, failed := none, success_rate := none }

/-- Counterexample to Claim C3 as stated: the progress log is guarded by
JavaScript truthiness (`data.processed && data.total`), so a successful
non-terminal tick whose response contains `processed = 0` and
`total = 20` — both counts present — overwrites the snapshot but appends
*no* info log entry. -/
theorem progress_log_zero_processed_cex :
    respZeroW.processed = some 0 ∧ respZeroW.total = some 20 ∧
    respZeroW.status = "processing" ∧
    (pollTick clockW ivW (StatusResult.ok respZeroW) sPollW).logs = sPollW.logs ∧
    (pollTick clockW ivW (StatusResult.ok respZeroW) sPollW).campaignStatus =
      some { fileName := "contacts.csv", status := "processing", processed := some 0,
             total := some 20, successful := none, failed := none, successRate := none } := by
  refine ⟨rfl, rfl, rfl, ?_, ?_⟩ <;> decide

/-- Claim C3 (amended: both counts must additionally be nonzero, i.e.
truthy, for the log to appear): a successful non-terminal poll tick
whose response carries nonzero `processed = p` and `total = t`
overwrites the snapshot with the response fields and appends one info
log entry `Progress: p/t contacts processed`. -/
theorem progress_tick_updates_and_logs (c : Clock) (iv : Interval) (d : StatusResponse)
    (s : AppState) (p t : Nat)
    (hp : d.processed = some p) (ht : d.total = some t)
    (hp0 : p ≠ 0) (ht0 : t ≠ 0) (hst : d.status ≠ "completed") :
    (pollTick c iv (StatusResult.ok d) s).campaignStatus =
      some { fileName := iv.fileName, status := d.status, processed := some p,
             total := some t, successful := d.successful, failed := d.failed,
             successRate := d.success_rate } ∧
    (pollTick c iv (StatusResult.ok d) s).logs =
      mkLog c ("Progress: " ++ Nat.repr p ++ "/" ++ Nat.repr t ++ " contacts processed")
        LogType.info :: s.logs := by
  constructor <;>
    simp [pollTick, hp, ht, hst, jsTruthyNum, jsNumStr, hp0, ht0, addLog, bne_iff_ne]

/-- The spec's scenario response `{status: processing, processed: 5, total: 20}`. -/
def respFiveW : StatusResponse :=
  { status := "processing", processed := some 5, total := some 20,
    successful := none, failed := none, success_rate := none }

/-- Witness for the amended C3 at the spec's own scenario: processed=5,
total=20 yields the info log `Progress: 5/20 contacts processed` and the
updated snapshot. -/
theorem progress_tick_updates_and_logs_witness :
    (pollTick clockW ivW (StatusResult.ok respFiveW) sPollW).campaignStatus =
      some { fileName := ivW.fileName, status := "processing", processed := some 5,
             total := some 20, successful := none, failed := none, successRate := none } ∧
    (pollTick clockW ivW (StatusResult.ok respFiveW) sPollW).logs =
      mkLog clockW ("Progress: " ++ Nat.repr 5 ++ "/" ++ Nat.repr 20 ++ " contacts processed")
        LogType.info :: sPollW.logs :=
  ⟨(progress_tick_updates_and_logs clockW ivW respFiveW sPollW 5 20 rfl rfl
      (by decide) (by decide) (by decide)).1,
   (progress_tick_updates_and_logs clockW ivW respFiveW sPollW 5 20 rfl rfl
      (by decide) (by decide) (by decide)).2⟩

/-- Counterexample to Claim C4 as stated: on an HTTP 400 whose body
carries `detail = "Invalid file format"`, the error *log* carries the
detail but the error *notification* is the fixed string
`Failed to start campaign`, which does not contain the detail message —
so the notification does not carry the backend's detail. -/
theorem submit_error_toast_cex :
    (handleSendMessages clockW clockW clockW
      (SubmitResult.httpError (some "Invalid file format")) sFileW).1.toast.message =
      "Failed to start campaign" ∧
    jsIncludes
      (handleSendMessages clockW clockW clockW
        (SubmitResult.httpError (some "Invalid file format")) sFileW).1.toast.message
      "Invalid file format" = false ∧
    (handleSendMessages clockW clockW clockW
      (SubmitResult.httpError (some "Invalid file format")) sFileW).1.logs.map LogEntry.message =
      ["Error: Invalid file format", "Uploading file and starting campaign..."] ∧
    jsIncludes "Error: Invalid file format" "Invalid file format" = true := by
  refine ⟨rfl, by decide, rfl, by decide⟩

/-- Claim C4 (amended: the error notification is the fixed message
`Failed to start campaign`; only the error log entry carries the
backend's detail message when present and truthy — a `||` fallback, so
an absent *or empty* detail yields the generic `Error sending messages`
— and for a transport failure the thrown error's message): a failed
submission appends the attempt's info entry plus exactly one error
entry `Error: <message>`, shows one error toast, creates no campaign
handle (the snapshot is unchanged) and starts no poller (timer state
unchanged). -/
theorem submit_failure_behavior (c1 c2 c3 : Clock) (r : SubmitResult) (f : FileHandle)
    (s : AppState) (em : String) (hf : s.file = some f)
    (hm : (∃ dopt, r = SubmitResult.httpError dopt ∧
            em = jsOrElse dopt "Error sending messages") ∨
          r = SubmitResult.transportError em) :
    (handleSendMessages c1 c2 c3 r s).1.logs =
      mkLog c2 ("Error: " ++ em) LogType.error ::
        mkLog c1 "Uploading file and starting campaign..." LogType.info :: s.logs ∧
    (handleSendMessages c1 c2 c3 r s).1.toast =
      { message := "Failed to start campaign", type := some ToastType.error } ∧
    (handleSendMessages c1 c2 c3 r s).1.campaignStatus = s.campaignStatus ∧
    (handleSendMessages c1 c2 c3 r s).1.pollingInterval = s.pollingInterval ∧
    (handleSendMessages c1 c2 c3 r s).1.liveIntervals = s.liveIntervals ∧
    (handleSendMessages c1 c2 c3 r s).1.nextTimerId = s.nextTimerId := by
  rcases hm with ⟨dopt, hr, hem⟩ | hr
  · subst hr
    subst hem
    simp [handleSendMessages, hf, setToastFx, addLog]
  · subst hr
    simp [handleSendMessages, hf, setToastFx, addLog]

/-- Witness for the amended C4 at the spec's scenario: HTTP 400 with
detail `Invalid file format`. -/
theorem submit_failure_behavior_witness :
    (handleSendMessages clockW clockW clockW
      (SubmitResult.httpError (some "Invalid file format")) sFileW).1.logs =
      mkLog clockW ("Error: " ++ "Invalid file format") LogType.error ::
        mkLog clockW "Uploading file and starting campaign..." LogType.info :: sFileW.logs ∧
    (handleSendMessages clockW clockW clockW
      (SubmitResult.httpError (some "Invalid file format")) sFileW).1.toast =
      { message := "Failed to start campaign", type := some ToastType.error } ∧
    (handleSendMessages clockW clockW clockW
      (SubmitResult.httpError (some "Invalid file format")) sFileW).1.liveIntervals =
      sFileW.liveIntervals := by
  have h := submit_failure_behavior clockW clockW clockW
    (SubmitResult.httpError (some "Invalid file format")) fileW sFileW
    "Invalid file format" rfl (Or.inl ⟨some "Invalid file format", rfl, rfl⟩)
  exact ⟨h.1, h.2.1, h.2.2.2.2.1⟩

/-- Claim C5: selecting a candidate whose name does not end in `.csv`
leaves the file selection, the log, and all campaign/poller state
unchanged and produces exactly one error notification; selecting a name
ending in `.csv` replaces the selection and appends one info log entry
naming the file (toast untouched). -/
theorem file_selection_behavior (c : Clock) (f : FileHandle) (s : AppState) :
    (jsEndsWith f.name ".csv" = false →
      (handleFileSelected c f s).file = s.file ∧
      (handleFileSelected c f s).logs = s.logs ∧
      (handleFileSelected c f s).toast =
        { message := "Please upload a CSV file", type := some ToastType.error } ∧
      (handleFileSelected c f s).campaignStatus = s.campaignStatus ∧
      (handleFileSelected c f s).pollingInterval = s.pollingInterval ∧
      (handleFileSelected c f s).liveIntervals = s.liveIntervals ∧
      (handleFileSelected c f s).isLoading = s.isLoading ∧
      (handleFileSelected c f s).nextTimerId = s.nextTimerId ∧
      (handleFileSelected c f s).templateName = s.templateName) ∧
    (jsEndsWith f.name ".csv" = true →
      (handleFileSelected c f s).file = some f ∧
      (handleFileSelected c f s).logs =
        mkLog c ("File selected: " ++ f.name) LogType.info :: s.logs ∧
      (handleFileSelected c f s).toast = s.toast ∧
      (handleFileSelected c f s).toastDeadline = s.toastDeadline) := by
  constructor
  · intro h
    simp [handleFileSelected, h, setToastFx]
  · intro h
    simp [handleFileSelected, h, addLog]

/-- Witness for C5: `contacts.txt` is rejected without a log entry;
`contacts.csv` is accepted and logged. -/
theorem file_selection_behavior_witness :
    ((handleFileSelected clockW { name := "contacts.txt", size := 3 } initState).logs =
        initState.logs ∧
      (handleFileSelected clockW { name := "contacts.txt", size := 3 } initState).toast =
        { message := "Please upload a CSV file", type := some ToastType.error }) ∧
    (handleFileSelected clockW { name := "contacts.csv", size := 3 } initState).file =
      some { name := "contacts.csv", size := 3 } := by
  have hbad := (file_selection_behavior clockW { name := "contacts.txt", size := 3 } initState).1
    (by decide)
  have hgood := (file_selection_behavior clockW { name := "contacts.csv", size := 3 } initState).2
    (by decide)
  exact ⟨⟨hbad.2.1, hbad.2.2.1⟩, hgood.1⟩

/-- Claim C8: showing a second notification inside the first one's
3000 ms auto-clear window replaces the visible notification (the slot is
single-valued, so at most one notification is ever visible), re-arms the
deadline to exactly 3000 ms after the second `show`, the slot clears at
that deadline, and at no other instant — in particular not at the first
notification's original deadline — does the expiry fire (the first
timer was cancelled by the effect cleanup). -/
theorem toast_replacement_timer (c1 c2 : Clock) (n1 n2 : ToastVal) (s : AppState)
    (h1 : n1.type.isSome = true) (h2 : n2.type.isSome = true)
    (hw : c2.nowMs < c1.nowMs + toastAutoClearMs) :
    (setToastFx c2 n2 (setToastFx c1 n1 s)).toast = n2 ∧
    (setToastFx c2 n2 (setToastFx c1 n1 s)).toastDeadline =
      some (c2.nowMs + toastAutoClearMs) ∧
    (expireToast (c2.nowMs + toastAutoClearMs) (setToastFx c2 n2 (setToastFx c1 n1 s))).toast =
      { message := "", type := none } ∧
    ∀ u, u ≠ c2.nowMs + toastAutoClearMs →
      expireToast u (setToastFx c2 n2 (setToastFx c1 n1 s)) =
        setToastFx c2 n2 (setToastFx c1 n1 s) := by
  refine ⟨rfl, by simp [setToastFx, h2], ?_, ?_⟩
  · simp [setToastFx, expireToast, h2]
  · intro u hu
    simp [setToastFx, expireToast, h2, Ne.symm hu]

/-- First toast of the C8 witness. -/
def nW1 : ToastVal := { message := "Failed to start campaign", type := some ToastType.error }

/-- Second toast of the C8 witness. -/
def nW2 : ToastVal := { message := "Campaign started successfully", type := some ToastType.success }

/-- Witness for C8: N1 shown at 1000 ms, N2 at 2000 ms (inside N1's
window); only N2 is visible, the slot clears at 5000 ms, and nothing
happens at N1's original 4000 ms deadline. -/
theorem toast_replacement_timer_witness :
    (setToastFx { nowMs := 2000, localeTime := "b" } nW2
      (setToastFx { nowMs := 1000, localeTime := "a" } nW1 initState)).toast = nW2 ∧
    (expireToast (2000 + toastAutoClearMs)
      (setToastFx { nowMs := 2000, localeTime := "b" } nW2
        (setToastFx { nowMs := 1000, localeTime := "a" } nW1 initState))).toast =
      { message := "", type := none } ∧
    expireToast 4000
      (setToastFx { nowMs := 2000, localeTime := "b" } nW2
        (setToastFx { nowMs := 1000, localeTime := "a" } nW1 initState)) =
      setToastFx { nowMs := 2000, localeTime := "b" } nW2
        (setToastFx { nowMs := 1000, localeTime := "a" } nW1 initState) := by
  have h := toast_replacement_timer { nowMs := 1000, localeTime := "a" }
    { nowMs := 2000, localeTime := "b" } nW1 nW2 initState
    (by decide) (by decide) (by decide)
  exact ⟨h.1, h.2.2.1, h.2.2.2 4000 (by decide)⟩

/-- Claim C9: a submit attempt with no file selected issues no network
request, shows exactly one error notification, and changes nothing else:
logs, selection, snapshot, poller state and loading flag are all
unchanged. -/
theorem submit_without_file (c1 c2 c3 : Clock) (r : SubmitResult) (s : AppState)
    (hf : s.file = none) :
    (handleSendMessages c1 c2 c3 r s).2 = false ∧
    (handleSendMessages c1 c2 c3 r s).1.toast =
      { message := "Please select a CSV file first", type := some ToastType.error } ∧
    (handleSendMessages c1 c2 c3 r s).1.logs = s.logs ∧
    (handleSendMessages c1 c2 c3 r s).1.file = s.file ∧
    (handleSendMessages c1 c2 c3 r s).1.campaignStatus = s.campaignStatus ∧
    (handleSendMessages c1 c2 c3 r s).1.pollingInterval = s.pollingInterval ∧
    (handleSendMessages c1 c2 c3 r s).1.liveIntervals = s.liveIntervals ∧
    (handleSendMessages c1 c2 c3 r s).1.isLoading = s.isLoading := by
  simp [handleSendMessages, hf, setToastFx]

/-- Witness for C9 on the initial state. -/
theorem submit_without_file_witness :
    (handleSendMessages clockW clockW clockW (SubmitResult.ok "queued") initState).2 = false ∧
    (handleSendMessages clockW clockW clockW (SubmitResult.ok "queued") initState).1.logs =
      initState.logs ∧
    (handleSendMessages clockW clockW clockW (SubmitResult.ok "queued") initState).1.toast =
      { message := "Please select a CSV file first", type := some ToastType.error } := by
  have h := submit_without_file clockW clockW clockW (SubmitResult.ok "queued") initState rfl
  exact ⟨h.1, h.2.2.1, h.2.1⟩

/-- Claim C10: a failing poll tick (non-2xx status response or transport
error) appends exactly one error log entry (`Error checking campaign
status`) and changes nothing else: the snapshot, the notification slot
and its deadline, and the timer state are all unchanged, and the
interval — created by `startPollingStatus` with its fixed 5000 ms
period — remains live on its original schedule. -/
theorem poll_error_tick_behavior (c : Clock) (iv : Interval) (s : AppState)
    (hlive : iv ∈ s.liveIntervals) :
    (pollTick c iv StatusResult.err s).logs =
      mkLog c "Error checking campaign status" LogType.error :: s.logs ∧
    (pollTick c iv StatusResult.err s).campaignStatus = s.campaignStatus ∧
    (pollTick c iv StatusResult.err s).toast = s.toast ∧
    (pollTick c iv StatusResult.err s).toastDeadline = s.toastDeadline ∧
    (pollTick c iv StatusResult.err s).liveIntervals = s.liveIntervals ∧
    (pollTick c iv StatusResult.err s).pollingInterval = s.pollingInterval ∧
    iv ∈ (pollTick c iv StatusResult.err s).liveIntervals := by
  refine ⟨rfl, rfl, rfl, rfl, rfl, rfl, ?_⟩
  exact hlive

/-- Witness for C10: a failing tick on the live poller `ivW`. -/
theorem poll_error_tick_behavior_witness :
    (pollTick clockW ivW StatusResult.err sPollW).logs =
      mkLog clockW "Error checking campaign status" LogType.error :: sPollW.logs ∧
    (pollTick clockW ivW StatusResult.err sPollW).campaignStatus = sPollW.campaignStatus ∧
    ivW ∈ (pollTick clockW ivW StatusResult.err sPollW).liveIntervals := by
  have h := poll_error_tick_behavior clockW ivW sPollW (by decide)
  exact ⟨h.1, h.2.1, h.2.2.2.2.2.2⟩

end WhatsappSpec
